import Mathlib

/-!
Verification of the `/predict` request handler in `app.py` (a Flask front-end
that forwards an uploaded image to an external inference provider and reshapes
the provider response).

The handler is embedded shallowly: the external effects of one request
(whether the model handle was initialized at startup, the outcome of
`file.save`, the outcome of `model.predict(...).json()`, and the outcome of
`os.remove`) are collected in an `Env` record, the multipart request in a
`Request` record, and the existence of the stored upload file in an `FS`
record threaded through the handler.
-/

/-- One detection record from the provider response:
`{class, confidence}` (`app.py` consumes `p['class']` and `p['confidence']`).
Confidences are modelled as integers; only their order matters to the code. -/
structure Detection where
  cls : String
  confidence : Int
deriving DecidableEq, Repr

/-- Python `str.title()` on a character list, restricted to ASCII case mapping:
a letter is uppercased when the previous character was not a letter and
lowercased otherwise; non-letters pass through and reset the word boundary. -/
def pyTitleAux : Bool → List Char → List Char
  | _, [] => []
  | prev, c :: cs =>
      if c.isAlpha then
        (if prev then c.toLower else c.toUpper) :: pyTitleAux true cs
      else
        c :: pyTitleAux false cs

/-- Python `str.title()` (`best_prediction['class'].title()` in `app.py`). -/
def pyTitle (s : String) : String := String.mk (pyTitleAux false s.data)

/-- One step of Python `max(..., key=lambda p: p['confidence'])`: the running
best is replaced only when the new element's key is strictly greater, so the
first maximum in iteration order wins ties. -/
def pyMaxStep (best p : Detection) : Detection :=
  if best.confidence < p.confidence then p else best

/-- Python `max(predictions, key=lambda p: p['confidence'])` on a non-empty
list given as head and tail. -/
def pyMax1 (d : Detection) (l : List Detection) : Detection :=
  l.foldl pyMaxStep d

/-- The JSON bodies `jsonify` produces in `app.py`: `{"error": msg}`,
`{"error": msg, "details": details}`, and
`{"prediction": p, "confidence": c, "tags": ts}`. -/
inductive Body where
  | error (msg : String)
  | errorDetails (msg details : String)
  | success (prediction : String) (confidence : Int) (tags : List String)
deriving DecidableEq, Repr

/-- `app.py` lines 79–97: reduce the provider's prediction list to the
response body.  Empty list: the fixed no-detection body.  Non-empty list: the
first maximum-confidence detection gives prediction (title-cased class) and
confidence, and `list(set([p['class'] for p in predictions]))` is modelled by
`List.dedup` of the class labels (one list of the distinct labels; the Python
set order is unspecified). -/
def formatDetections : List Detection → Body
  | [] => Body.success "Nothing detected" 0 ["no-detection"]
  | d :: rest =>
      Body.success (pyTitle (pyMax1 d rest).cls) (pyMax1 d rest).confidence
        (((d :: rest).map Detection.cls).dedup)

/-- The multipart request as the handler sees it: whether the form has a
`file` field, and that field's client-supplied filename. -/
structure Request where
  hasFilePart : Bool
  filename : String
deriving DecidableEq, Repr

/-- The filesystem as far as one request observes it: whether the file at
this request's upload path exists. -/
structure FS where
  stored : Bool
deriving DecidableEq, Repr

/-- The per-request environment: the startup model handle (`model is None`
when `modelInit = false`), the outcome of `file.save(filepath)`
(`saveLeftover` says whether a failed save leaves a file at the path), the
outcome of `model.predict(filepath, confidence=40, overlap=30).json()` —
`Except.ok j` with `j : Option (List Detection)` standing for the parsed
response whose `predictions` key may be absent — and the outcome of
`os.remove(filepath)`. -/
structure Env where
  modelInit : Bool
  saveResult : Except String Unit
  saveLeftover : Bool
  providerJson : Except String (Option (List Detection))
  removeResult : Except String Unit

/-- Result of one call to the handler: an HTTP response with a status code
and body, or an exception propagating uncaught out of the handler. -/
inductive Outcome where
  | ok (status : Nat) (body : Body)
  | raised (e : String)
deriving DecidableEq, Repr

/-- `app.py` lines 74–99 inside the `try`: the provider call may raise;
on success `prediction_result.get('predictions', [])` defaults a missing key
to the empty list and the body is formatted from the list. -/
def tryAfterSave (pj : Except String (Option (List Detection))) :
    Except String Body :=
  match pj with
  | Except.error e => Except.error e
  | Except.ok j => Except.ok (formatDetections (j.getD []))

/-- `app.py` lines 69–103: the `try`/`except` block after validation.
Returns the pending `(status, body)` response together with the filesystem
state at entry to the `finally` block.  A successful save stores the file; a
failed save raises before the provider is called.  Any caught exception
yields the 500 "Failed to process the image." body with the exception's
string as details. -/
def tryExcept (env : Env) : (Nat × Body) × FS :=
  match env.saveResult with
  | Except.ok _ =>
      match tryAfterSave env.providerJson with
      | Except.ok body => ((200, body), FS.mk true)
      | Except.error e =>
          ((500, Body.errorDetails "Failed to process the image." e), FS.mk true)
  | Except.error e =>
      ((500, Body.errorDetails "Failed to process the image." e),
        FS.mk env.saveLeftover)

/-- `app.py` lines 105–109, the `finally` block: if the file exists it is
removed; `os.remove` itself may raise, and that failure is not guarded. -/
def cleanupStep (env : Env) (fs : FS) : Except String Unit × FS :=
  if fs.stored then
    match env.removeResult with
    | Except.ok _ => (Except.ok (), FS.mk false)
    | Except.error e => (Except.error e, fs)
  else (Except.ok (), fs)

/-- `app.py` lines 64–109, the `if file:` branch: run the `try`/`except`
block, then the `finally` block; per Python semantics, if `finally` raises,
its exception replaces the pending response and propagates uncaught. -/
def fileBranch (env : Env) : Outcome × FS :=
  match cleanupStep env (tryExcept env).2 with
  | (Except.ok _, fs2) =>
      (Outcome.ok (tryExcept env).1.1 (tryExcept env).1.2, fs2)
  | (Except.error e, fs2) => (Outcome.raised e, fs2)

/-- The `/predict` handler, `app.py` lines 50–111.  Checks in source order:
uninitialized model (500), missing `file` field (400), empty filename (400),
then the werkzeug `FileStorage` truthiness guard `if file:` — a
`FileStorage` is truthy exactly when its filename is non-empty — whose
fall-through is the line-111 "An unknown error occurred." fallback. -/
def predict (env : Env) (req : Request) (fs : FS) : Outcome × FS :=
  if env.modelInit = false then
    (Outcome.ok 500
      (Body.error "Model is not initialized. Check server logs for details."), fs)
  else if req.hasFilePart = false then
    (Outcome.ok 400 (Body.error "No file part in the request."), fs)
  else if req.filename = "" then
    (Outcome.ok 400 (Body.error "No file selected."), fs)
  else if req.filename ≠ "" then
    fileBranch env
  else
    (Outcome.ok 500 (Body.error "An unknown error occurred."), fs)

/-- The result of the Python `max` fold is an element of the list it reduced. -/
theorem pyMax1_mem (d : Detection) (l : List Detection) : pyMax1 d l ∈ d :: l := by
  induction l generalizing d with
  | nil => simp [pyMax1]
  | cons x l ih =>
      have e : pyMax1 d (x :: l) = pyMax1 (pyMaxStep d x) l := rfl
      rw [e]
      have h := ih (pyMaxStep d x)
      rw [List.mem_cons] at h
      rcases h with h | h
      · rw [h]
        unfold pyMaxStep
        split <;> simp
      · simp [List.mem_cons, h]

/-- Every element's confidence is at most the confidence of the Python `max`
result. -/
theorem pyMax1_le (d : Detection) (l : List Detection) :
    ∀ p ∈ d :: l, p.confidence ≤ (pyMax1 d l).confidence := by
  induction l generalizing d with
  | nil =>
      intro p hp
      rw [List.mem_singleton] at hp
      rw [hp]
      exact le_refl _
  | cons x l ih =>
      intro p hp
      have e : pyMax1 d (x :: l) = pyMax1 (pyMaxStep d x) l := rfl
      rw [e]
      have hd : d.confidence ≤ (pyMaxStep d x).confidence := by
        unfold pyMaxStep
        split
        · exact le_of_lt (by assumption)
        · exact le_refl _
      have hx : x.confidence ≤ (pyMaxStep d x).confidence := by
        unfold pyMaxStep
        split
        · exact le_refl _
        · exact le_of_not_lt (by assumption)
      have hstep :=
        ih (pyMaxStep d x) (pyMaxStep d x) (List.mem_cons_self _ _)
      rcases List.mem_cons.mp hp with h | h
      · rw [h]; exact le_trans hd hstep
      rcases List.mem_cons.mp h with h | h
      · rw [h]; exact le_trans hx hstep
      · exact ih (pyMaxStep d x) p (List.mem_cons_of_mem _ h)

/-- First maximum wins: the list splits as a strict-smaller prefix followed by
the `max` result; together with `pyMax1_le` this pins the chosen element to
the first maximum in iteration order. -/
theorem pyMax1_first (d : Detection) (l : List Detection) :
    ∃ pre suf, d :: l = pre ++ pyMax1 d l :: suf ∧
      ∀ p ∈ pre, p.confidence < (pyMax1 d l).confidence := by
  induction l generalizing d with
  | nil => exact ⟨[], [], rfl, by simp⟩
  | cons x l ih =>
      have e : pyMax1 d (x :: l) = pyMax1 (pyMaxStep d x) l := rfl
      rw [e]
      by_cases hc : d.confidence < x.confidence
      · have hstep : pyMaxStep d x = x := by
          unfold pyMaxStep; rw [if_pos hc]
        rw [hstep]
        obtain ⟨pre, suf, hsplit, hlt⟩ := ih x
        refine ⟨d :: pre, suf, ?_, ?_⟩
        · rw [List.cons_append, ← hsplit]
        · intro p hp
          rcases List.mem_cons.mp hp with h | h
          · rw [h]
            exact lt_of_lt_of_le hc (pyMax1_le x l x (List.mem_cons_self _ _))
          · exact hlt p h
      · have hstep : pyMaxStep d x = d := by
          unfold pyMaxStep; rw [if_neg hc]
        rw [hstep]
        obtain ⟨pre, suf, hsplit, hlt⟩ := ih d
        cases pre with
        | nil =>
            rw [List.nil_append] at hsplit
            have hhead : pyMax1 d l = d := (List.cons.injEq _ _ _ _).mp hsplit |>.1.symm
            refine ⟨[], x :: l, ?_, by simp⟩
            rw [List.nil_append, hhead]
        | cons q pre₂ =>
            rw [List.cons_append] at hsplit
            have hq : q = d := ((List.cons.injEq _ _ _ _).mp hsplit).1.symm
            have hl : l = pre₂ ++ pyMax1 d l :: suf :=
              ((List.cons.injEq _ _ _ _).mp hsplit).2
            refine ⟨d :: x :: pre₂, suf, ?_, ?_⟩
            · rw [List.cons_append, List.cons_append, ← hl]
            · intro p hp
              have hdlt : d.confidence < (pyMax1 d l).confidence := by
                have := hlt q (List.mem_cons_self _ _)
                rwa [hq] at this
              rcases List.mem_cons.mp hp with h | h
              · rw [h]; exact hdlt
              rcases List.mem_cons.mp h with h | h
              · rw [h]; exact lt_of_le_of_lt (le_of_not_lt hc) hdlt
              · exact hlt p (List.mem_cons_of_mem _ h)

/-- Reduction of the handler on the happy path: validations pass, the save
succeeds, the provider returns a parsed response with a `predictions` list,
and the cleanup delete succeeds. -/
theorem predict_ok_eq (env : Env) (req : Request) (fs : FS)
    (hm : env.modelInit = true) (hf : req.hasFilePart = true)
    (hn : ¬ req.filename = "") (hs : env.saveResult = Except.ok ())
    (ds : List Detection) (hp : env.providerJson = Except.ok (some ds))
    (hr : env.removeResult = Except.ok ()) :
    predict env req fs = (Outcome.ok 200 (formatDetections ds), FS.mk false) := by
  simp [predict, hm, hf, hn, fileBranch, tryExcept, hs, hp, tryAfterSave,
    cleanupStep, hr]

/-- If the delete succeeds whenever attempted, the `finally` block always
ends with the upload file gone. -/
theorem cleanupStep_ok (env : Env) (fs1 : FS)
    (hr : env.removeResult = Except.ok ()) :
    cleanupStep env fs1 = (Except.ok (), FS.mk false) := by
  cases fs1 with
  | mk st =>
      cases st with
      | false => rfl
      | true => simp [cleanupStep, hr]

/-- If the delete succeeds, the file-handling branch returns the pending
response of the `try`/`except` block with the upload file removed. -/
theorem fileBranch_cleanup (env : Env) (hr : env.removeResult = Except.ok ()) :
    fileBranch env =
      (Outcome.ok (tryExcept env).1.1 (tryExcept env).1.2, FS.mk false) := by
  unfold fileBranch
  rw [cleanupStep_ok env _ hr]

/-- `formatDetections` always produces a `success` body. -/
theorem formatDetections_success (ds : List Detection) :
    ∃ p c t, formatDetections ds = Body.success p c t := by
  cases ds with
  | nil => exact ⟨_, _, _, rfl⟩
  | cons d rest => exact ⟨_, _, _, rfl⟩

/-- The `try`/`except` block never produces the bare
"An unknown error occurred." body: its bodies are `success` or
`errorDetails`. -/
theorem tryExcept_no_unknown (env : Env) :
    (tryExcept env).1.2 ≠ Body.error "An unknown error occurred." := by
  unfold tryExcept
  cases hs : env.saveResult with
  | error e => simp
  | ok u =>
      cases hp : env.providerJson with
      | error e => simp [tryAfterSave]
      | ok j =>
          obtain ⟨p, c, t, hfd⟩ := formatDetections_success (j.getD [])
          simp [tryAfterSave, hfd]

/-- Concrete detections of the specification's running example. -/
def exampleDetections : List Detection :=
  [Detection.mk "cow" 55, Detection.mk "buffalo" 82, Detection.mk "cow" 40]

/-- A valid multipart request carrying a file named `cow.jpg`. -/
def exampleReq : Request := Request.mk true "cow.jpg"

/-- C1: for every non-empty detection list returned by the provider, the
handler responds 200 with prediction the title-cased class of the detection
with maximum confidence — the first maximum in iteration order wins ties —
confidence that detection's raw confidence, and tags the set of distinct
class labels across all detections (no duplicates, membership exactly the
labels observed, original casing retained). -/
theorem predict_best_detection (env : Env) (req : Request) (fs : FS)
    (d : Detection) (rest : List Detection)
    (hm : env.modelInit = true) (hf : req.hasFilePart = true)
    (hn : ¬ req.filename = "") (hs : env.saveResult = Except.ok ())
    (hp : env.providerJson = Except.ok (some (d :: rest)))
    (hr : env.removeResult = Except.ok ()) :
    ∃ best tags,
      (predict env req fs).1 =
        Outcome.ok 200 (Body.success (pyTitle best.cls) best.confidence tags) ∧
      (∃ pre suf, d :: rest = pre ++ best :: suf ∧
        ∀ p ∈ pre, p.confidence < best.confidence) ∧
      (∀ p ∈ d :: rest, p.confidence ≤ best.confidence) ∧
      tags.Nodup ∧
      (∀ s, s ∈ tags ↔ s ∈ (d :: rest).map Detection.cls) := by
  refine ⟨pyMax1 d rest, ((d :: rest).map Detection.cls).dedup, ?_,
    pyMax1_first d rest, pyMax1_le d rest, List.nodup_dedup _,
    fun s => List.mem_dedup⟩
  rw [predict_ok_eq env req fs hm hf hn hs _ hp hr]
  rfl

/-- Witness for C1 at the specification's running example; the final
conjunct additionally pins the concrete response: prediction "Buffalo",
confidence 82, tags the two distinct labels. -/
theorem predict_best_detection_witness :
    (Env.mk true (Except.ok ()) false (Except.ok (some exampleDetections))
        (Except.ok ())).modelInit = true ∧
    exampleReq.hasFilePart = true ∧
    ¬ exampleReq.filename = "" ∧
    (Env.mk true (Except.ok ()) false (Except.ok (some exampleDetections))
        (Except.ok ())).saveResult = Except.ok () ∧
    (Env.mk true (Except.ok ()) false (Except.ok (some exampleDetections))
        (Except.ok ())).providerJson =
      Except.ok (some (Detection.mk "cow" 55 ::
        [Detection.mk "buffalo" 82, Detection.mk "cow" 40])) ∧
    (Env.mk true (Except.ok ()) false (Except.ok (some exampleDetections))
        (Except.ok ())).removeResult = Except.ok () ∧
    (∃ (best : Detection) (tags : List String),
      (predict
          (Env.mk true (Except.ok ()) false
            (Except.ok (some exampleDetections)) (Except.ok ()))
          exampleReq (FS.mk false)).1 =
        Outcome.ok 200 (Body.success (pyTitle best.cls) best.confidence tags) ∧
      (∃ pre suf,
        Detection.mk "cow" 55 ::
            [Detection.mk "buffalo" 82, Detection.mk "cow" 40] =
          pre ++ best :: suf ∧
        ∀ p ∈ pre, p.confidence < best.confidence) ∧
      (∀ p ∈ Detection.mk "cow" 55 ::
          [Detection.mk "buffalo" 82, Detection.mk "cow" 40],
        p.confidence ≤ best.confidence) ∧
      tags.Nodup ∧
      (∀ s, s ∈ tags ↔
        s ∈ (Detection.mk "cow" 55 ::
          [Detection.mk "buffalo" 82, Detection.mk "cow" 40]).map
            Detection.cls)) ∧
    (predict
        (Env.mk true (Except.ok ()) false (Except.ok (some exampleDetections))
          (Except.ok ()))
        exampleReq (FS.mk false)).1 =
      Outcome.ok 200 (Body.success "Buffalo" 82 ["buffalo", "cow"]) :=
  ⟨rfl, rfl, by decide, rfl, rfl, rfl,
    predict_best_detection
      (Env.mk true (Except.ok ()) false (Except.ok (some exampleDetections))
        (Except.ok ()))
      exampleReq (FS.mk false) (Detection.mk "cow" 55)
      [Detection.mk "buffalo" 82, Detection.mk "cow" 40]
      rfl rfl (by decide) rfl rfl rfl,
    by decide⟩

/-- C2: when the provider response carries an empty detection list, the
handler responds 200 with exactly the body
prediction "Nothing detected", confidence 0, tags ["no-detection"]. -/
theorem predict_empty_detections (env : Env) (req : Request) (fs : FS)
    (hm : env.modelInit = true) (hf : req.hasFilePart = true)
    (hn : ¬ req.filename = "") (hs : env.saveResult = Except.ok ())
    (hp : env.providerJson = Except.ok (some []))
    (hr : env.removeResult = Except.ok ()) :
    (predict env req fs).1 =
      Outcome.ok 200 (Body.success "Nothing detected" 0 ["no-detection"]) := by
  rw [predict_ok_eq env req fs hm hf hn hs [] hp hr]
  rfl

/-- Witness for C2: a request whose provider response has no detections. -/
theorem predict_empty_detections_witness :
    (Env.mk true (Except.ok ()) false (Except.ok (some []))
        (Except.ok ())).modelInit = true ∧
    exampleReq.hasFilePart = true ∧
    ¬ exampleReq.filename = "" ∧
    (Env.mk true (Except.ok ()) false (Except.ok (some []))
        (Except.ok ())).saveResult = Except.ok () ∧
    (Env.mk true (Except.ok ()) false (Except.ok (some []))
        (Except.ok ())).providerJson = Except.ok (some []) ∧
    (Env.mk true (Except.ok ()) false (Except.ok (some []))
        (Except.ok ())).removeResult = Except.ok () ∧
    (predict (Env.mk true (Except.ok ()) false (Except.ok (some []))
        (Except.ok ())) exampleReq (FS.mk false)).1 =
      Outcome.ok 200 (Body.success "Nothing detected" 0 ["no-detection"]) :=
  ⟨rfl, rfl, by decide, rfl, rfl, rfl,
    predict_empty_detections
      (Env.mk true (Except.ok ()) false (Except.ok (some [])) (Except.ok ()))
      exampleReq (FS.mk false) rfl rfl (by decide) rfl rfl rfl⟩

/-- C3: for every request that reaches the file-save step (validations
passed), provided the delete operation itself succeeds, the stored upload is
gone at the end of request handling on every exit path — whether the save
and provider call succeed or raise. -/
theorem predict_cleanup_removes_upload (env : Env) (req : Request) (fs : FS)
    (hm : env.modelInit = true) (hf : req.hasFilePart = true)
    (hn : ¬ req.filename = "") (hr : env.removeResult = Except.ok ()) :
    ((predict env req fs).2).stored = false := by
  have e : predict env req fs = fileBranch env := by
    simp [predict, hm, hf, hn]
  rw [e, fileBranch_cleanup env hr]

/-- Witness for C3 on a failure path: the save raises and leaves a partial
file behind, yet the handler ends with the upload removed. -/
theorem predict_cleanup_removes_upload_witness :
    (Env.mk true (Except.error "disk full") true (Except.ok (some []))
        (Except.ok ())).modelInit = true ∧
    exampleReq.hasFilePart = true ∧
    ¬ exampleReq.filename = "" ∧
    (Env.mk true (Except.error "disk full") true (Except.ok (some []))
        (Except.ok ())).removeResult = Except.ok () ∧
    ((predict (Env.mk true (Except.error "disk full") true
        (Except.ok (some [])) (Except.ok ())) exampleReq
        (FS.mk false)).2).stored = false :=
  ⟨rfl, rfl, by decide, rfl,
    predict_cleanup_removes_upload
      (Env.mk true (Except.error "disk full") true (Except.ok (some []))
        (Except.ok ()))
      exampleReq (FS.mk false) rfl rfl (by decide) rfl⟩

/-- C4: whenever the model handle was never initialized, the handler returns
500 with the "Model is not initialized..." error for every payload — the
check precedes file-presence validation, so a missing file still yields this
500, never a 400. -/
theorem predict_model_uninitialized (env : Env) (req : Request) (fs : FS)
    (h : env.modelInit = false) :
    predict env req fs =
      (Outcome.ok 500
        (Body.error "Model is not initialized. Check server logs for details."),
        fs) := by
  simp [predict, h]

/-- Witness for C4 at a payload with no file part at all: still 500, not
400. -/
theorem predict_model_uninitialized_witness :
    (Env.mk false (Except.ok ()) false (Except.ok (some []))
        (Except.ok ())).modelInit = false ∧
    predict (Env.mk false (Except.ok ()) false (Except.ok (some []))
        (Except.ok ())) (Request.mk false "") (FS.mk false) =
      (Outcome.ok 500
        (Body.error "Model is not initialized. Check server logs for details."),
        FS.mk false) :=
  ⟨rfl,
    predict_model_uninitialized
      (Env.mk false (Except.ok ()) false (Except.ok (some [])) (Except.ok ()))
      (Request.mk false "") (FS.mk false) rfl⟩

/-- C5: with the model initialized, a request without a `file` field in the
multipart payload gets 400 "No file part in the request." and the
filesystem state is unchanged — no file is stored. -/
theorem predict_no_file_part (env : Env) (req : Request) (fs : FS)
    (hm : env.modelInit = true) (hf : req.hasFilePart = false) :
    predict env req fs =
      (Outcome.ok 400 (Body.error "No file part in the request."), fs) := by
  simp [predict, hm, hf]

/-- Witness for C5. -/
theorem predict_no_file_part_witness :
    (Env.mk true (Except.ok ()) false (Except.ok (some []))
        (Except.ok ())).modelInit = true ∧
    (Request.mk false "cow.jpg").hasFilePart = false ∧
    predict (Env.mk true (Except.ok ()) false (Except.ok (some []))
        (Except.ok ())) (Request.mk false "cow.jpg") (FS.mk false) =
      (Outcome.ok 400 (Body.error "No file part in the request."),
        FS.mk false) :=
  ⟨rfl, rfl,
    predict_no_file_part
      (Env.mk true (Except.ok ()) false (Except.ok (some [])) (Except.ok ()))
      (Request.mk false "cow.jpg") (FS.mk false) rfl rfl⟩

/-- C6: with the model initialized, a `file` field carrying an empty
client-supplied filename gets 400 "No file selected." and the filesystem
state is unchanged — no file is stored. -/
theorem predict_no_file_selected (env : Env) (req : Request) (fs : FS)
    (hm : env.modelInit = true) (hf : req.hasFilePart = true)
    (hn : req.filename = "") :
    predict env req fs =
      (Outcome.ok 400 (Body.error "No file selected."), fs) := by
  simp [predict, hm, hf, hn]

/-- Witness for C6. -/
theorem predict_no_file_selected_witness :
    (Env.mk true (Except.ok ()) false (Except.ok (some []))
        (Except.ok ())).modelInit = true ∧
    (Request.mk true "").hasFilePart = true ∧
    (Request.mk true "").filename = "" ∧
    predict (Env.mk true (Except.ok ()) false (Except.ok (some []))
        (Except.ok ())) (Request.mk true "") (FS.mk false) =
      (Outcome.ok 400 (Body.error "No file selected."), FS.mk false) :=
  ⟨rfl, rfl, rfl,
    predict_no_file_selected
      (Env.mk true (Except.ok ()) false (Except.ok (some [])) (Except.ok ()))
      (Request.mk true "") (FS.mk false) rfl rfl rfl⟩

/-- C7: when the file save or the provider inference call raises, the
handler catches it and returns 500 with the "Failed to process the image."
body carrying the exception string as details, and cleanup still runs: the
upload is gone afterward (delete itself succeeding). -/
theorem predict_processing_failure (env : Env) (req : Request) (fs : FS)
    (e : String)
    (hm : env.modelInit = true) (hf : req.hasFilePart = true)
    (hn : ¬ req.filename = "")
    (hfail : env.saveResult = Except.error e ∨
      (env.saveResult = Except.ok () ∧ env.providerJson = Except.error e))
    (hr : env.removeResult = Except.ok ()) :
    (predict env req fs).1 =
      Outcome.ok 500 (Body.errorDetails "Failed to process the image." e) ∧
    ((predict env req fs).2).stored = false := by
  have ep : predict env req fs = fileBranch env := by
    simp [predict, hm, hf, hn]
  rw [ep, fileBranch_cleanup env hr]
  refine ⟨?_, rfl⟩
  rcases hfail with hsave | ⟨hsave, hprov⟩
  · simp [tryExcept, hsave]
  · simp [tryExcept, hsave, tryAfterSave, hprov]

/-- Witness for C7 at a provider failure. -/
theorem predict_processing_failure_witness :
    (Env.mk true (Except.ok ()) false (Except.error "network down")
        (Except.ok ())).modelInit = true ∧
    exampleReq.hasFilePart = true ∧
    ¬ exampleReq.filename = "" ∧
    ((Env.mk true (Except.ok ()) false (Except.error "network down")
        (Except.ok ())).saveResult = Except.error "network down" ∨
      ((Env.mk true (Except.ok ()) false (Except.error "network down")
          (Except.ok ())).saveResult = Except.ok () ∧
        (Env.mk true (Except.ok ()) false (Except.error "network down")
          (Except.ok ())).providerJson = Except.error "network down")) ∧
    (Env.mk true (Except.ok ()) false (Except.error "network down")
        (Except.ok ())).removeResult = Except.ok () ∧
    ((predict (Env.mk true (Except.ok ()) false (Except.error "network down")
        (Except.ok ())) exampleReq (FS.mk false)).1 =
      Outcome.ok 500
        (Body.errorDetails "Failed to process the image." "network down") ∧
    ((predict (Env.mk true (Except.ok ()) false (Except.error "network down")
        (Except.ok ())) exampleReq (FS.mk false)).2).stored = false) :=
  ⟨rfl, rfl, by decide, Or.inr ⟨rfl, rfl⟩, rfl,
    predict_processing_failure
      (Env.mk true (Except.ok ()) false (Except.error "network down")
        (Except.ok ()))
      exampleReq (FS.mk false) "network down" rfl rfl (by decide)
      (Or.inr ⟨rfl, rfl⟩) rfl⟩

/-- C8: the line-111 fallback body "An unknown error occurred." is
unreachable: no environment, request, or filesystem state makes the handler
return it, because once the validations pass the werkzeug file object is
truthy (its filename is non-empty) and control returns from inside the
file-handling branch. -/
theorem predict_fallback_unreachable (env : Env) (req : Request) (fs : FS) :
    (predict env req fs).1 ≠
      Outcome.ok 500 (Body.error "An unknown error occurred.") := by
  by_cases hm : env.modelInit = false
  · simp [predict, hm]
  · by_cases hf : req.hasFilePart = false
    · simp [predict, hm, hf]
    · by_cases hn : req.filename = ""
      · simp [predict, hm, hf, hn]
      · have e : predict env req fs = fileBranch env := by
          simp [predict, hm, hf, hn]
        rw [e]
        unfold fileBranch
        rcases hcl : cleanupStep env (tryExcept env).2 with ⟨rc, fs2⟩
        cases rc with
        | ok u =>
            intro h
            injection h with h1 h2
            exact tryExcept_no_unknown env h2
        | error e2 => simp

/-- C9: the cleanup step is unguarded: there is a request state — a valid
request whose save and provider call succeed but whose `os.remove` raises —
in which the exception propagates uncaught out of the handler instead of
becoming a JSON error response, and the upload file survives. -/
theorem predict_remove_failure_uncaught :
    predict
      (Env.mk true (Except.ok ()) false (Except.ok (some []))
        (Except.error "remove failed"))
      (Request.mk true "cow.jpg") (FS.mk false) =
    (Outcome.raised "remove failed", FS.mk true) := by decide

/-- C10: for every non-empty detection list, the class label of the selected
best detection — in its original casing — is a member of the returned tags
list, and the tags list is non-empty with no duplicate labels. -/
theorem predict_tags_wellformed (env : Env) (req : Request) (fs : FS)
    (d : Detection) (rest : List Detection)
    (hm : env.modelInit = true) (hf : req.hasFilePart = true)
    (hn : ¬ req.filename = "") (hs : env.saveResult = Except.ok ())
    (hp : env.providerJson = Except.ok (some (d :: rest)))
    (hr : env.removeResult = Except.ok ()) :
    ∃ (best : Detection) (tags : List String),
      (predict env req fs).1 =
        Outcome.ok 200 (Body.success (pyTitle best.cls) best.confidence tags) ∧
      best.cls ∈ tags ∧ tags ≠ [] ∧ tags.Nodup := by
  have hmem : (pyMax1 d rest).cls ∈ ((d :: rest).map Detection.cls).dedup :=
    List.mem_dedup.mpr (List.mem_map_of_mem Detection.cls (pyMax1_mem d rest))
  refine ⟨pyMax1 d rest, ((d :: rest).map Detection.cls).dedup, ?_, hmem,
    List.ne_nil_of_mem hmem, List.nodup_dedup _⟩
  rw [predict_ok_eq env req fs hm hf hn hs _ hp hr]
  rfl

/-- Witness for C10 at the specification's running example. -/
theorem predict_tags_wellformed_witness :
    (Env.mk true (Except.ok ()) false (Except.ok (some exampleDetections))
        (Except.ok ())).modelInit = true ∧
    exampleReq.hasFilePart = true ∧
    ¬ exampleReq.filename = "" ∧
    (Env.mk true (Except.ok ()) false (Except.ok (some exampleDetections))
        (Except.ok ())).saveResult = Except.ok () ∧
    (Env.mk true (Except.ok ()) false (Except.ok (some exampleDetections))
        (Except.ok ())).providerJson =
      Except.ok (some (Detection.mk "cow" 55 ::
        [Detection.mk "buffalo" 82, Detection.mk "cow" 40])) ∧
    (Env.mk true (Except.ok ()) false (Except.ok (some exampleDetections))
        (Except.ok ())).removeResult = Except.ok () ∧
    (∃ (best : Detection) (tags : List String),
      (predict
          (Env.mk true (Except.ok ()) false
            (Except.ok (some exampleDetections)) (Except.ok ()))
          exampleReq (FS.mk false)).1 =
        Outcome.ok 200 (Body.success (pyTitle best.cls) best.confidence tags) ∧
      best.cls ∈ tags ∧ tags ≠ [] ∧ tags.Nodup) :=
  ⟨rfl, rfl, by decide, rfl, rfl, rfl,
    predict_tags_wellformed
      (Env.mk true (Except.ok ()) false (Except.ok (some exampleDetections))
        (Except.ok ()))
      exampleReq (FS.mk false) (Detection.mk "cow" 55)
      [Detection.mk "buffalo" 82, Detection.mk "cow" 40]
      rfl rfl (by decide) rfl rfl rfl⟩
